import Mathlib

/-!
Shallow embedding of `source/portable/windows/core_pkcs11_pal.c`
(corePKCS11 PAL for the Windows simulator, V2.0.0).

The PAL stores four kinds of cryptographic objects, one flat file per kind.
The filesystem is modelled as an association list from file names to byte
blobs; Win32 calls that can fail (CreateFileA, WriteFile, ReadFile,
DeleteFileA) and the allocator are modelled by an oracle `OSEnv` describing
their outcomes, and each PAL operation is a pure function of the oracle,
the filesystem state and its C arguments, returning its C result together
with the new filesystem state and the values written through its output
pointers.
-/

set_option autoImplicit false

namespace PKCS11PAL

/-! ## Constants from the source file -/

/-- `eObjectHandles`: 0 is never a valid object handle. -/
def eInvalidHandle : Nat := 0

/-- `eObjectHandles`: private key. -/
def eAwsDevicePrivateKey : Nat := 1

/-- `eObjectHandles`: public key. -/
def eAwsDevicePublicKey : Nat := 2

/-- `eObjectHandles`: certificate. -/
def eAwsDeviceCertificate : Nat := 3

/-- `eObjectHandles`: code signing key. -/
def eAwsCodeSigningKey : Nat := 4

/-- File name of the certificate object (`pkcs11palFILE_NAME_CLIENT_CERTIFICATE`). -/
def pkcs11palFILE_NAME_CLIENT_CERTIFICATE : String := "FreeRTOS_P11_Certificate.dat"

/-- File name of the public key object (`pkcs11palFILE_NAME_PUBLIC_KEY`). -/
def pkcs11palFILE_NAME_PUBLIC_KEY : String := "FreeRTOS_P11_PubKey.dat"

/-- File name of the private key object (`pkcs11palFILE_NAME_KEY`). -/
def pkcs11palFILE_NAME_KEY : String := "FreeRTOS_P11_Key.dat"

/-- File name of the code sign key object (`pkcs11palFILE_CODE_SIGN_PUBLIC_KEY`). -/
def pkcs11palFILE_CODE_SIGN_PUBLIC_KEY : String := "FreeRTOS_P11_CodeSignKey.dat"

/-- Modelled from the spec: PKCS #11 return values. The numeric values come
from the cryptoki headers vendored by the repository (not part of this source
file); only their distinctness matters here, and we use the standard values. -/
def CKR_OK : Nat := 0x00

/-- Modelled from the spec: `HostMemory` (allocation failure). -/
def CKR_HOST_MEMORY : Nat := 0x02

/-- Modelled from the spec: `FunctionFailed` (storage operation failed). -/
def CKR_FUNCTION_FAILED : Nat := 0x06

/-- Modelled from the spec: the invalid-handle error raised by
`prvHandleToFilename` (`CKR_KEY_HANDLE_INVALID` in the source). -/
def CKR_KEY_HANDLE_INVALID : Nat := 0x60

/-- Modelled from the spec: `ObjectHandleInvalid`
(`CKR_OBJECT_HANDLE_INVALID` in the source). -/
def CKR_OBJECT_HANDLE_INVALID : Nat := 0x82

/-- Byte sequence of a string literal. -/
def strBytes (s : String) : List Nat := s.data.map Char.toNat

/-- Modelled from the spec: the four recognized label constants are defined
in `core_pkcs11_config.h`, which is not part of this source file; they are
fixed, distinct byte strings. We use the default configuration values, with
the terminating NUL byte included because the source compares
`sizeof( constant )` bytes, which counts the terminator of the literal. -/
def pkcs11configLABEL_DEVICE_CERTIFICATE_FOR_TLS : List Nat :=
  strBytes "Device Cert" ++ [0]

/-- Modelled from the spec: private key label, see
`pkcs11configLABEL_DEVICE_CERTIFICATE_FOR_TLS`. -/
def pkcs11configLABEL_DEVICE_PRIVATE_KEY_FOR_TLS : List Nat :=
  strBytes "Device Priv TLS Key" ++ [0]

/-- Modelled from the spec: public key label, see
`pkcs11configLABEL_DEVICE_CERTIFICATE_FOR_TLS`. -/
def pkcs11configLABEL_DEVICE_PUBLIC_KEY_FOR_TLS : List Nat :=
  strBytes "Device Pub TLS Key" ++ [0]

/-- Modelled from the spec: code verification key label, see
`pkcs11configLABEL_DEVICE_CERTIFICATE_FOR_TLS`. -/
def pkcs11configLABEL_CODE_VERIFICATION_KEY : List Nat :=
  strBytes "Code Verify Key" ++ [0]

/-! ## Filesystem model -/

/-- The filesystem: an association list from file names to file contents.
The first entry for a name wins. -/
abbrev FS := List (String × List Nat)

/-- Content of a file, `none` when the file does not exist. -/
def fsGet : FS → String → Option (List Nat)
  | [], _ => none
  | (k, v) :: rest, fn => if k = fn then some v else fsGet rest fn

/-- Remove every entry for a file name. -/
def fsRemove : FS → String → FS
  | [], _ => []
  | (k, v) :: rest, fn =>
      if k = fn then fsRemove rest fn else (k, v) :: fsRemove rest fn

/-- Create or fully overwrite a file. -/
def fsSet (fs : FS) (fn : String) (d : List Nat) : FS :=
  (fn, d) :: fsRemove fs fn

/-- Outcomes of the Win32 calls and of the allocator, supplied as an oracle.
`readBytes n` is the result of `ReadFile` asked for `n` bytes: `none` means
the call returned FALSE, `some k` means it returned TRUE having read `k`
bytes. -/
structure OSEnv where
  createOk : Bool
  writeOk : Bool
  openOk : Bool
  allocOk : Bool
  readBytes : Nat → Option Nat
  deleteOk : Bool

/-- The oracle on which every OS call succeeds and a read delivers exactly
the requested number of bytes. -/
def envOK : OSEnv :=
  { createOk := true, writeOk := true, openOk := true, allocOk := true,
    readBytes := fun n => some n, deleteOk := true }

/-- The oracle where every OS call succeeds except `ReadFile`, which
returns FALSE. -/
def envReadFail : OSEnv :=
  { envOK with readBytes := fun _ => none }

/-- The oracle where every OS call succeeds except `WriteFile`, which
returns FALSE. -/
def envWriteFail : OSEnv :=
  { envOK with writeOk := false }

/-! ## Label and handle resolution -/

/-- `0 == memcmp( pcLabel, &constant, sizeof( constant ) )`: the first
`c.length` bytes of `l` equal `c`. When `l` is shorter than `c` the C code
reads past the end of the caller buffer (undefined behavior); the model
reports a mismatch in that case. -/
def memcmpEqLen (l c : List Nat) : Bool :=
  l.take c.length == c

/-- `prvLabelToFilenameHandle`: maps a label to a file name and an object
handle. The argument is the `pcLabel` pointer (`none` = NULL); the result is
the final value of the two output variables, which both callers initialize
to NULL and `eInvalidHandle` and which the function leaves untouched when
`pcLabel` is NULL. -/
def prvLabelToFilenameHandle (pcLabel : Option (List Nat)) :
    Option String × Nat :=
  match pcLabel with
  | none => (none, eInvalidHandle)
  | some l =>
    if memcmpEqLen l pkcs11configLABEL_DEVICE_CERTIFICATE_FOR_TLS then
      (some pkcs11palFILE_NAME_CLIENT_CERTIFICATE, eAwsDeviceCertificate)
    else if memcmpEqLen l pkcs11configLABEL_DEVICE_PRIVATE_KEY_FOR_TLS then
      (some pkcs11palFILE_NAME_KEY, eAwsDevicePrivateKey)
    else if memcmpEqLen l pkcs11configLABEL_DEVICE_PUBLIC_KEY_FOR_TLS then
      (some pkcs11palFILE_NAME_PUBLIC_KEY, eAwsDevicePublicKey)
    else if memcmpEqLen l pkcs11configLABEL_CODE_VERIFICATION_KEY then
      (some pkcs11palFILE_CODE_SIGN_PUBLIC_KEY, eAwsCodeSigningKey)
    else
      (none, eInvalidHandle)

/-- `prvHandleToFilename`: maps an object handle to `( CK_RV, file name,
privacy flag )`. The two `Option` components are the values written through
`pcFileName` and `pIsPrivate`; `none` means the pointer is left untouched
(the `default` case writes neither). Both call sites pass a non-NULL
`pcFileName`, so the NULL-guarded branch of the source is not modelled. -/
def prvHandleToFilename (xHandle : Nat) : Nat × Option String × Option Bool :=
  if xHandle = eAwsDeviceCertificate then
    (CKR_OK, some pkcs11palFILE_NAME_CLIENT_CERTIFICATE, some false)
  else if xHandle = eAwsDevicePrivateKey then
    (CKR_OK, some pkcs11palFILE_NAME_KEY, some true)
  else if xHandle = eAwsDevicePublicKey then
    (CKR_OK, some pkcs11palFILE_NAME_PUBLIC_KEY, some false)
  else if xHandle = eAwsCodeSigningKey then
    (CKR_OK, some pkcs11palFILE_CODE_SIGN_PUBLIC_KEY, some false)
  else
    (CKR_KEY_HANDLE_INVALID, none, none)

/-- `prvFileExists`: `GetFileAttributesA` on a NULL name fails, so a NULL
file name reports absent. -/
def prvFileExists (fs : FS) (pcFileName : Option String) : Bool :=
  match pcFileName with
  | none => false
  | some fn => (fsGet fs fn).isSome

/-! ## PAL operations -/

/-- `PKCS11_PAL_SaveObject`: the label argument is `pxLabel->pValue`
(`none` = NULL). `CreateFileA` with `CREATE_ALWAYS` truncates the file to
empty on success; `WriteFile` then stores `ulDataSize` bytes of `pucData`.
Returns the handle result together with the new filesystem. -/
def PKCS11_PAL_SaveObject (env : OSEnv) (fs : FS)
    (pValue : Option (List Nat)) (pucData : List Nat) (ulDataSize : Nat) :
    Nat × FS :=
  let r := prvLabelToFilenameHandle pValue
  match r.1 with
  | none => (r.2, fs)
  | some fn =>
    if env.createOk then
      let fs1 := fsSet fs fn []
      if env.writeOk then
        (r.2, fsSet fs1 fn (pucData.take ulDataSize))
      else
        (eInvalidHandle, fs1)
    else
      (eInvalidHandle, fs)

/-- `PKCS11_PAL_FindObject`: `usLength` is explicitly discarded by the
source (`( void ) usLength`). -/
def PKCS11_PAL_FindObject (fs : FS) (pxLabel : Option (List Nat))
    (usLength : Nat) : Nat :=
  let _ := usLength
  let r := prvLabelToFilenameHandle pxLabel
  if prvFileExists fs r.1 then r.2 else eInvalidHandle

/-- Caller-visible result of `PKCS11_PAL_GetObjectValue`: the return value
and the values written through the three output pointers (`none` = pointer
never written; for `ppucData`, `some none` = NULL stored after a failed
allocation, `some (some bs)` = an allocated buffer holding the bytes the OS
read into it). `allocated` records that a buffer was obtained from
`pvPortMalloc`, `freed` that the function itself released it before
returning (the source contains no such release). -/
structure GetResult where
  rv : Nat
  pulDataSize : Option Nat
  ppucData : Option (Option (List Nat))
  pIsPrivate : Option Bool
  allocated : Bool
  freed : Bool
  deriving DecidableEq, Repr

/-- `PKCS11_PAL_GetObjectValue`. When the handle resolves but the file does
not exist the whole body is skipped and the `CKR_OK` from
`prvHandleToFilename` is returned with no output written. `GetFileSize`
reports the length of the existing file; `ReadFile` failure leaves the
allocated buffer unfilled (modelled as empty). -/
def PKCS11_PAL_GetObjectValue (env : OSEnv) (fs : FS) (xHandle : Nat) :
    GetResult :=
  match prvHandleToFilename xHandle with
  | (rv0, none, priv) =>
    { rv := rv0, pulDataSize := none, ppucData := none, pIsPrivate := priv,
      allocated := false, freed := false }
  | (rv0, some fn, priv) =>
    match fsGet fs fn with
    | none =>
      { rv := rv0, pulDataSize := none, ppucData := none, pIsPrivate := priv,
        allocated := false, freed := false }
    | some content =>
      let rv1 := if env.openOk then rv0 else CKR_FUNCTION_FAILED
      if rv1 = 0 then
        let size := content.length
        if env.allocOk then
          match env.readBytes size with
          | none =>
            { rv := CKR_FUNCTION_FAILED, pulDataSize := some size,
              ppucData := some (some []), pIsPrivate := priv,
              allocated := true, freed := false }
          | some k =>
            if k = size then
              { rv := CKR_OK, pulDataSize := some size,
                ppucData := some (some (content.take k)), pIsPrivate := priv,
                allocated := true, freed := false }
            else
              { rv := CKR_FUNCTION_FAILED, pulDataSize := some size,
                ppucData := some (some (content.take k)), pIsPrivate := priv,
                allocated := true, freed := false }
        else
          { rv := CKR_HOST_MEMORY, pulDataSize := some size,
            ppucData := some none, pIsPrivate := priv,
            allocated := false, freed := false }
      else
        { rv := rv1, pulDataSize := none, ppucData := none,
          pIsPrivate := priv, allocated := false, freed := false }

/-- `PKCS11_PAL_DestroyObject`: `xResult` is initialized to
`CKR_OBJECT_HANDLE_INVALID` but immediately overwritten by the result of
`prvHandleToFilename`. Deletion happens only when the handle resolved and
the file exists. -/
def PKCS11_PAL_DestroyObject (env : OSEnv) (fs : FS) (xHandle : Nat) :
    Nat × FS :=
  let r := prvHandleToFilename xHandle
  if r.1 = CKR_OK then
    if prvFileExists fs r.2.1 then
      if env.deleteOk then
        (CKR_OK, match r.2.1 with
                 | some fn => fsRemove fs fn
                 | none => fs)
      else
        (CKR_FUNCTION_FAILED, fs)
    else
      (r.1, fs)
  else
    (r.1, fs)

/-! ## Helper lemmas -/

theorem fsGet_fsSet_same (fs : FS) (fn : String) (d : List Nat) :
    fsGet (fsSet fs fn d) fn = some d := by
  simp [fsSet, fsGet]

theorem fsGet_fsRemove_same (fs : FS) (fn : String) :
    fsGet (fsRemove fs fn) fn = none := by
  induction fs with
  | nil => rfl
  | cons e rest ih =>
    obtain ⟨k, v⟩ := e
    by_cases hk : k = fn <;> simp [fsRemove, fsGet, hk, ih]

/-- A label that resolves to a file name and handle yields a handle that
`prvHandleToFilename` maps back to the same file name. -/
theorem resolve_handle_of_label (L : List Nat) (fn : String) (hdl : Nat)
    (hres : prvLabelToFilenameHandle (some L) = (some fn, hdl)) :
    ∃ p, prvHandleToFilename hdl = (CKR_OK, some fn, some p) := by
  simp only [prvLabelToFilenameHandle] at hres
  split_ifs at hres
  · obtain ⟨h1, h2⟩ := hres
    exact ⟨false, by decide⟩
  · obtain ⟨h1, h2⟩ := hres
    exact ⟨true, by decide⟩
  · obtain ⟨h1, h2⟩ := hres
    exact ⟨false, by decide⟩
  · obtain ⟨h1, h2⟩ := hres
    exact ⟨false, by decide⟩
  · simp at hres

/-- When the label does not resolve to a file name, the handle output is the
invalid handle. -/
theorem resolve_none_invalid (label : Option (List Nat))
    (h : (prvLabelToFilenameHandle label).1 = none) :
    (prvLabelToFilenameHandle label).2 = eInvalidHandle := by
  cases label with
  | none => rfl
  | some l =>
    simp only [prvLabelToFilenameHandle] at h ⊢
    split_ifs at h ⊢
    simp_all

/-- A successful save on a resolved label stores exactly the first
`ulDataSize` bytes of the data. -/
theorem saveObject_envOK_resolved (fs : FS) (L D : List Nat) (n : Nat)
    (fn : String) (hdl : Nat)
    (hres : prvLabelToFilenameHandle (some L) = (some fn, hdl)) :
    PKCS11_PAL_SaveObject envOK fs (some L) D n =
      (hdl, fsSet (fsSet fs fn []) fn (D.take n)) := by
  simp [PKCS11_PAL_SaveObject, hres, envOK]

/-- Reading a resolved handle whose file holds `D`, on the all-success
oracle, returns `D` in full. -/
theorem getObjectValue_envOK_of_file (fs : FS) (fn : String) (hdl : Nat)
    (p : Bool) (D : List Nat)
    (hh : prvHandleToFilename hdl = (CKR_OK, some fn, some p))
    (hfs : fsGet fs fn = some D) :
    PKCS11_PAL_GetObjectValue envOK fs hdl =
      { rv := CKR_OK, pulDataSize := some D.length,
        ppucData := some (some D), pIsPrivate := some p,
        allocated := true, freed := false } := by
  unfold PKCS11_PAL_GetObjectValue
  rw [hh]
  simp [hfs, envOK, CKR_OK]

/-- Structural facts about `PKCS11_PAL_GetObjectValue`: it never releases
the buffer itself, and whenever a buffer was allocated its address was
stored through `ppucData`. -/
theorem getObjectValue_shape (env : OSEnv) (fs : FS) (hdl : Nat) :
    (PKCS11_PAL_GetObjectValue env fs hdl).freed = false ∧
    ((PKCS11_PAL_GetObjectValue env fs hdl).allocated = true →
      ∃ bs, (PKCS11_PAL_GetObjectValue env fs hdl).ppucData =
        some (some bs)) := by
  unfold PKCS11_PAL_GetObjectValue
  dsimp only
  repeat' split
  all_goals simp

/-! ## Claims -/

/-- C1: the claim states that `PKCS11_PAL_GetObjectValue` on a recognized
handle whose backing file does not exist fails with `CKR_FUNCTION_FAILED`.
The code instead skips the whole body when the file is absent and returns
the `CKR_OK` produced by `prvHandleToFilename`, writing neither the data
pointer nor the size: evaluated on an empty filesystem at the certificate
handle, the call returns `CKR_OK`, which differs from
`CKR_FUNCTION_FAILED`. -/
theorem getObjectValue_missing_backing_returns_ok :
    PKCS11_PAL_GetObjectValue envOK [] eAwsDeviceCertificate =
      { rv := CKR_OK, pulDataSize := none, ppucData := none,
        pIsPrivate := some false, allocated := false, freed := false } ∧
    CKR_OK ≠ CKR_FUNCTION_FAILED := by
  exact ⟨rfl, by decide⟩

/-- C2: round trip. For any label that resolves to a file name and handle
and any byte sequence `D`, saving `D` under the label and then reading the
handle returned by find succeeds: find returns the resolved handle, and the
read returns a buffer byte-equal to `D` with reported length exactly
`D.length` (on the oracle where every OS call succeeds). -/
theorem save_find_get_roundtrip (fs : FS) (L D : List Nat) (usLen : Nat)
    (fn : String) (hdl : Nat)
    (hres : prvLabelToFilenameHandle (some L) = (some fn, hdl)) :
    PKCS11_PAL_FindObject
        (PKCS11_PAL_SaveObject envOK fs (some L) D D.length).2
        (some L) usLen = hdl ∧
    (PKCS11_PAL_GetObjectValue envOK
        (PKCS11_PAL_SaveObject envOK fs (some L) D D.length).2
        (PKCS11_PAL_FindObject
          (PKCS11_PAL_SaveObject envOK fs (some L) D D.length).2
          (some L) usLen)).rv = CKR_OK ∧
    (PKCS11_PAL_GetObjectValue envOK
        (PKCS11_PAL_SaveObject envOK fs (some L) D D.length).2
        (PKCS11_PAL_FindObject
          (PKCS11_PAL_SaveObject envOK fs (some L) D D.length).2
          (some L) usLen)).ppucData = some (some D) ∧
    (PKCS11_PAL_GetObjectValue envOK
        (PKCS11_PAL_SaveObject envOK fs (some L) D D.length).2
        (PKCS11_PAL_FindObject
          (PKCS11_PAL_SaveObject envOK fs (some L) D D.length).2
          (some L) usLen)).pulDataSize = some D.length := by
  have hsave := saveObject_envOK_resolved fs L D D.length fn hdl hres
  obtain ⟨p, hh⟩ := resolve_handle_of_label L fn hdl hres
  have hfile : fsGet (PKCS11_PAL_SaveObject envOK fs (some L) D D.length).2 fn =
      some D := by
    rw [hsave]
    simpa using fsGet_fsSet_same (fsSet fs fn []) fn (D.take D.length)
  have hfind : PKCS11_PAL_FindObject
      (PKCS11_PAL_SaveObject envOK fs (some L) D D.length).2
      (some L) usLen = hdl := by
    simp [PKCS11_PAL_FindObject, hres, prvFileExists, hfile]
  have hget := getObjectValue_envOK_of_file _ fn hdl p D hh hfile
  rw [hfind, hget]
  exact ⟨rfl, rfl, rfl, rfl⟩

/-- C2 witness: the round trip instantiated on the certificate label, once
with the three bytes `ABC` and once with the empty byte sequence. -/
theorem save_find_get_roundtrip_witness :
    (prvLabelToFilenameHandle
        (some pkcs11configLABEL_DEVICE_CERTIFICATE_FOR_TLS) =
      (some pkcs11palFILE_NAME_CLIENT_CERTIFICATE, eAwsDeviceCertificate)) ∧
    (PKCS11_PAL_GetObjectValue envOK
        (PKCS11_PAL_SaveObject envOK []
          (some pkcs11configLABEL_DEVICE_CERTIFICATE_FOR_TLS)
          [65, 66, 67] 3).2
        (PKCS11_PAL_FindObject
          (PKCS11_PAL_SaveObject envOK []
            (some pkcs11configLABEL_DEVICE_CERTIFICATE_FOR_TLS)
            [65, 66, 67] 3).2
          (some pkcs11configLABEL_DEVICE_CERTIFICATE_FOR_TLS) 11)).ppucData =
      some (some [65, 66, 67]) ∧
    (PKCS11_PAL_GetObjectValue envOK
        (PKCS11_PAL_SaveObject envOK []
          (some pkcs11configLABEL_DEVICE_CERTIFICATE_FOR_TLS) [] 0).2
        (PKCS11_PAL_FindObject
          (PKCS11_PAL_SaveObject envOK []
            (some pkcs11configLABEL_DEVICE_CERTIFICATE_FOR_TLS) [] 0).2
          (some pkcs11configLABEL_DEVICE_CERTIFICATE_FOR_TLS) 11)).ppucData =
      some (some []) :=
  ⟨by decide,
   (save_find_get_roundtrip [] pkcs11configLABEL_DEVICE_CERTIFICATE_FOR_TLS
      [65, 66, 67] 11 pkcs11palFILE_NAME_CLIENT_CERTIFICATE
      eAwsDeviceCertificate (by decide)).2.2.1,
   (save_find_get_roundtrip [] pkcs11configLABEL_DEVICE_CERTIFICATE_FOR_TLS
      [] 11 pkcs11palFILE_NAME_CLIENT_CERTIFICATE
      eAwsDeviceCertificate (by decide)).2.2.1⟩

/-- C3 counterexample: the claim states that destroy on an unrecognized
handle fails with `CKR_OBJECT_HANDLE_INVALID`. At the concrete unrecognized
handle `0` on the empty filesystem, the code returns
`CKR_KEY_HANDLE_INVALID` (the `xResult` initializer
`CKR_OBJECT_HANDLE_INVALID` is overwritten by the result of
`prvHandleToFilename`), which is a different error code. -/
theorem destroy_unrecognized_errcode_cex :
    (PKCS11_PAL_DestroyObject envOK [] 0).1 = CKR_KEY_HANDLE_INVALID ∧
    CKR_KEY_HANDLE_INVALID ≠ CKR_OBJECT_HANDLE_INVALID := by
  exact ⟨rfl, by decide⟩

/-- C3 amended: for every handle value that is not one of the four
recognized constants (including the sentinel 0), destroy fails with the
`CKR_KEY_HANDLE_INVALID` error and does not touch the filesystem. -/
theorem destroy_unrecognized_handle (env : OSEnv) (fs : FS) (hdl : Nat)
    (h1 : hdl ≠ eAwsDevicePrivateKey) (h2 : hdl ≠ eAwsDevicePublicKey)
    (h3 : hdl ≠ eAwsDeviceCertificate) (h4 : hdl ≠ eAwsCodeSigningKey) :
    PKCS11_PAL_DestroyObject env fs hdl = (CKR_KEY_HANDLE_INVALID, fs) := by
  simp [PKCS11_PAL_DestroyObject, prvHandleToFilename, h1, h2, h3, h4,
    CKR_KEY_HANDLE_INVALID, CKR_OK]

/-- C3 witness: the amended statement at handle 0 on a one-file
filesystem. -/
theorem destroy_unrecognized_handle_witness :
    PKCS11_PAL_DestroyObject envOK [(pkcs11palFILE_NAME_KEY, [7])] 0 =
      (CKR_KEY_HANDLE_INVALID, [(pkcs11palFILE_NAME_KEY, [7])]) :=
  destroy_unrecognized_handle envOK [(pkcs11palFILE_NAME_KEY, [7])] 0
    (by decide) (by decide) (by decide) (by decide)

/-- C4 counterexample: the claim states that when the read fails after the
buffer allocation succeeded, the buffer is released internally before the
error is returned. At the concrete input where the certificate file holds
three bytes and `ReadFile` fails, the call returns `CKR_FUNCTION_FAILED`
with a buffer allocated and never released (the function contains no free
call), and the buffer was stored through the caller-visible output
pointer. -/
theorem getObjectValue_read_failure_leak_cex :
    (PKCS11_PAL_GetObjectValue envReadFail
        [(pkcs11palFILE_NAME_CLIENT_CERTIFICATE, [1, 2, 3])]
        eAwsDeviceCertificate).rv = CKR_FUNCTION_FAILED ∧
    (PKCS11_PAL_GetObjectValue envReadFail
        [(pkcs11palFILE_NAME_CLIENT_CERTIFICATE, [1, 2, 3])]
        eAwsDeviceCertificate).allocated = true ∧
    (PKCS11_PAL_GetObjectValue envReadFail
        [(pkcs11palFILE_NAME_CLIENT_CERTIFICATE, [1, 2, 3])]
        eAwsDeviceCertificate).freed = false := by
  exact ⟨rfl, rfl, rfl⟩

/-- C4 amended: whenever `PKCS11_PAL_GetObjectValue` fails after its
internal buffer allocation succeeded, the allocated buffer is NOT released
internally: the error is returned with the buffer still live and its
address already stored through the output data pointer, so the caller does
receive an unreleased buffer on such failure paths. -/
theorem getObjectValue_failure_keeps_buffer (env : OSEnv) (fs : FS)
    (hdl : Nat)
    (halloc : (PKCS11_PAL_GetObjectValue env fs hdl).allocated = true)
    (_hfail : (PKCS11_PAL_GetObjectValue env fs hdl).rv ≠ CKR_OK) :
    (PKCS11_PAL_GetObjectValue env fs hdl).freed = false ∧
    ∃ bs, (PKCS11_PAL_GetObjectValue env fs hdl).ppucData =
      some (some bs) :=
  ⟨(getObjectValue_shape env fs hdl).1,
   (getObjectValue_shape env fs hdl).2 halloc⟩

/-- C4 witness: the amended statement at the read-failure input of the
counterexample. -/
theorem getObjectValue_failure_keeps_buffer_witness :
    ((PKCS11_PAL_GetObjectValue envReadFail
        [(pkcs11palFILE_NAME_CLIENT_CERTIFICATE, [1, 2, 3])]
        eAwsDeviceCertificate).allocated = true ∧
     (PKCS11_PAL_GetObjectValue envReadFail
        [(pkcs11palFILE_NAME_CLIENT_CERTIFICATE, [1, 2, 3])]
        eAwsDeviceCertificate).rv ≠ CKR_OK) ∧
    ((PKCS11_PAL_GetObjectValue envReadFail
        [(pkcs11palFILE_NAME_CLIENT_CERTIFICATE, [1, 2, 3])]
        eAwsDeviceCertificate).freed = false ∧
     ∃ bs, (PKCS11_PAL_GetObjectValue envReadFail
        [(pkcs11palFILE_NAME_CLIENT_CERTIFICATE, [1, 2, 3])]
        eAwsDeviceCertificate).ppucData = some (some bs)) :=
  ⟨⟨by decide, by decide⟩,
   getObjectValue_failure_keeps_buffer envReadFail
     [(pkcs11palFILE_NAME_CLIENT_CERTIFICATE, [1, 2, 3])]
     eAwsDeviceCertificate (by decide) (by decide)⟩

/-- C5: overwrite semantics. For any label that resolves, saving `D1` and
then `D2` and then reading the object returns exactly `D2` with length
exactly `D2.length`, no matter the relative lengths of `D1` and `D2` (on
the oracle where every OS call succeeds). -/
theorem save_overwrite_semantics (fs : FS) (L D1 D2 : List Nat)
    (fn : String) (hdl : Nat)
    (hres : prvLabelToFilenameHandle (some L) = (some fn, hdl)) :
    (PKCS11_PAL_GetObjectValue envOK
        (PKCS11_PAL_SaveObject envOK
          (PKCS11_PAL_SaveObject envOK fs (some L) D1 D1.length).2
          (some L) D2 D2.length).2 hdl).rv = CKR_OK ∧
    (PKCS11_PAL_GetObjectValue envOK
        (PKCS11_PAL_SaveObject envOK
          (PKCS11_PAL_SaveObject envOK fs (some L) D1 D1.length).2
          (some L) D2 D2.length).2 hdl).ppucData = some (some D2) ∧
    (PKCS11_PAL_GetObjectValue envOK
        (PKCS11_PAL_SaveObject envOK
          (PKCS11_PAL_SaveObject envOK fs (some L) D1 D1.length).2
          (some L) D2 D2.length).2 hdl).pulDataSize = some D2.length := by
  obtain ⟨p, hh⟩ := resolve_handle_of_label L fn hdl hres
  have hsave2 := saveObject_envOK_resolved
    (PKCS11_PAL_SaveObject envOK fs (some L) D1 D1.length).2
    L D2 D2.length fn hdl hres
  have hfile : fsGet (PKCS11_PAL_SaveObject envOK
      (PKCS11_PAL_SaveObject envOK fs (some L) D1 D1.length).2
      (some L) D2 D2.length).2 fn = some D2 := by
    rw [hsave2]
    simpa using fsGet_fsSet_same _ fn (D2.take D2.length)
  have hget := getObjectValue_envOK_of_file _ fn hdl p D2 hh hfile
  rw [hget]
  exact ⟨rfl, rfl, rfl⟩

/-- C5 witness: overwriting the three-byte private key object with a single
byte leaves exactly that byte, with reported length 1. -/
theorem save_overwrite_semantics_witness :
    (prvLabelToFilenameHandle
        (some pkcs11configLABEL_DEVICE_PRIVATE_KEY_FOR_TLS) =
      (some pkcs11palFILE_NAME_KEY, eAwsDevicePrivateKey)) ∧
    (PKCS11_PAL_GetObjectValue envOK
        (PKCS11_PAL_SaveObject envOK
          (PKCS11_PAL_SaveObject envOK []
            (some pkcs11configLABEL_DEVICE_PRIVATE_KEY_FOR_TLS)
            [1, 2, 3] 3).2
          (some pkcs11configLABEL_DEVICE_PRIVATE_KEY_FOR_TLS) [9] 1).2
        eAwsDevicePrivateKey).ppucData = some (some [9]) ∧
    (PKCS11_PAL_GetObjectValue envOK
        (PKCS11_PAL_SaveObject envOK
          (PKCS11_PAL_SaveObject envOK []
            (some pkcs11configLABEL_DEVICE_PRIVATE_KEY_FOR_TLS)
            [1, 2, 3] 3).2
          (some pkcs11configLABEL_DEVICE_PRIVATE_KEY_FOR_TLS) [9] 1).2
        eAwsDevicePrivateKey).pulDataSize = some 1 :=
  ⟨by decide,
   (save_overwrite_semantics [] pkcs11configLABEL_DEVICE_PRIVATE_KEY_FOR_TLS
      [1, 2, 3] [9] pkcs11palFILE_NAME_KEY eAwsDevicePrivateKey
      (by decide)).2.1,
   (save_overwrite_semantics [] pkcs11configLABEL_DEVICE_PRIVATE_KEY_FOR_TLS
      [1, 2, 3] [9] pkcs11palFILE_NAME_KEY eAwsDevicePrivateKey
      (by decide)).2.2⟩

/-- C6: idempotent destroy. For every handle that resolves (on an oracle
where deletion succeeds), the first destroy returns success, the second
destroy in a row returns success and leaves the filesystem unchanged, and
destroying when the backing file does not exist is success with no
filesystem change at all. -/
theorem destroy_idempotent (env : OSEnv) (fs : FS) (hdl : Nat)
    (fn : String) (p : Bool) (hdel : env.deleteOk = true)
    (hh : prvHandleToFilename hdl = (CKR_OK, some fn, some p)) :
    (PKCS11_PAL_DestroyObject env fs hdl).1 = CKR_OK ∧
    PKCS11_PAL_DestroyObject env
        (PKCS11_PAL_DestroyObject env fs hdl).2 hdl =
      (CKR_OK, (PKCS11_PAL_DestroyObject env fs hdl).2) ∧
    (prvFileExists fs (some fn) = false →
      PKCS11_PAL_DestroyObject env fs hdl = (CKR_OK, fs)) := by
  have hgone : prvFileExists (fsRemove fs fn) (some fn) = false := by
    simp [prvFileExists, fsGet_fsRemove_same]
  by_cases hex : prvFileExists fs (some fn) = true
  · have h1 : PKCS11_PAL_DestroyObject env fs hdl = (CKR_OK, fsRemove fs fn) := by
      simp [PKCS11_PAL_DestroyObject, hh, hex, hdel, CKR_OK]
    refine ⟨by rw [h1], ?_, by simp [hex]⟩
    rw [h1]
    simp [PKCS11_PAL_DestroyObject, hh, hgone, CKR_OK]
  · have hex' : prvFileExists fs (some fn) = false := by
      simpa using hex
    have h1 : PKCS11_PAL_DestroyObject env fs hdl = (CKR_OK, fs) := by
      simp [PKCS11_PAL_DestroyObject, hh, hex', CKR_OK]
    refine ⟨by rw [h1], ?_, fun _ => h1⟩
    rw [h1]
    simp [PKCS11_PAL_DestroyObject, hh, hex', CKR_OK]

/-- C6 witness: destroying the certificate object twice on a filesystem
that holds it, and destroying it on a filesystem that does not. -/
theorem destroy_idempotent_witness :
    ((PKCS11_PAL_DestroyObject envOK
        [(pkcs11palFILE_NAME_CLIENT_CERTIFICATE, [1])]
        eAwsDeviceCertificate).1 = CKR_OK ∧
     PKCS11_PAL_DestroyObject envOK
        (PKCS11_PAL_DestroyObject envOK
          [(pkcs11palFILE_NAME_CLIENT_CERTIFICATE, [1])]
          eAwsDeviceCertificate).2 eAwsDeviceCertificate =
      (CKR_OK, (PKCS11_PAL_DestroyObject envOK
          [(pkcs11palFILE_NAME_CLIENT_CERTIFICATE, [1])]
          eAwsDeviceCertificate).2)) ∧
    PKCS11_PAL_DestroyObject envOK [] eAwsDeviceCertificate = (CKR_OK, []) :=
  ⟨⟨(destroy_idempotent envOK
       [(pkcs11palFILE_NAME_CLIENT_CERTIFICATE, [1])] eAwsDeviceCertificate
       pkcs11palFILE_NAME_CLIENT_CERTIFICATE false rfl (by decide)).1,
    (destroy_idempotent envOK
       [(pkcs11palFILE_NAME_CLIENT_CERTIFICATE, [1])] eAwsDeviceCertificate
       pkcs11palFILE_NAME_CLIENT_CERTIFICATE false rfl (by decide)).2.1⟩,
   (destroy_idempotent envOK [] eAwsDeviceCertificate
      pkcs11palFILE_NAME_CLIENT_CERTIFICATE false rfl (by decide)).2.2
     (by decide)⟩

/-- C7 counterexample: the claim states that every byte sequence not equal
to one of the four known label constants resolves to the invalid handle and
a null location. The concrete byte sequence made of the certificate label
constant followed by one extra byte is equal to none of the four constants,
yet the source compares only the first `sizeof( constant )` bytes
(`memcmp`), so it resolves to the certificate file name and handle. -/
theorem resolve_label_extension_cex :
    ((pkcs11configLABEL_DEVICE_CERTIFICATE_FOR_TLS ++ [65] ≠
        pkcs11configLABEL_DEVICE_CERTIFICATE_FOR_TLS) ∧
     (pkcs11configLABEL_DEVICE_CERTIFICATE_FOR_TLS ++ [65] ≠
        pkcs11configLABEL_DEVICE_PRIVATE_KEY_FOR_TLS) ∧
     (pkcs11configLABEL_DEVICE_CERTIFICATE_FOR_TLS ++ [65] ≠
        pkcs11configLABEL_DEVICE_PUBLIC_KEY_FOR_TLS) ∧
     (pkcs11configLABEL_DEVICE_CERTIFICATE_FOR_TLS ++ [65] ≠
        pkcs11configLABEL_CODE_VERIFICATION_KEY)) ∧
    prvLabelToFilenameHandle
        (some (pkcs11configLABEL_DEVICE_CERTIFICATE_FOR_TLS ++ [65])) =
      (some pkcs11palFILE_NAME_CLIENT_CERTIFICATE, eAwsDeviceCertificate) := by
  exact ⟨⟨by decide, by decide, by decide, by decide⟩, by decide⟩

/-- C7 amended: for every byte sequence that does not begin with any of the
four known label constants (each taken with its terminating NUL byte, the
`sizeof`-length block the source compares), `prvLabelToFilenameHandle`
returns the invalid handle and a null storage location. -/
theorem resolve_unrecognized_label (L : List Nat)
    (h1 : memcmpEqLen L pkcs11configLABEL_DEVICE_CERTIFICATE_FOR_TLS = false)
    (h2 : memcmpEqLen L pkcs11configLABEL_DEVICE_PRIVATE_KEY_FOR_TLS = false)
    (h3 : memcmpEqLen L pkcs11configLABEL_DEVICE_PUBLIC_KEY_FOR_TLS = false)
    (h4 : memcmpEqLen L pkcs11configLABEL_CODE_VERIFICATION_KEY = false) :
    prvLabelToFilenameHandle (some L) = (none, eInvalidHandle) := by
  simp [prvLabelToFilenameHandle, h1, h2, h3, h4]

/-- C7 witness: the amended statement at the byte sequence `[1, 2, 3]`. -/
theorem resolve_unrecognized_label_witness :
    prvLabelToFilenameHandle (some [1, 2, 3]) = (none, eInvalidHandle) :=
  resolve_unrecognized_label [1, 2, 3]
    (by decide) (by decide) (by decide) (by decide)

/-- C8: if `PKCS11_PAL_SaveObject` is given a label the registry cannot map
to a storage location, it returns the invalid handle and the filesystem is
returned completely unchanged, under every OS oracle. -/
theorem saveObject_unmapped_label_frame (env : OSEnv) (fs : FS)
    (label : Option (List Nat)) (D : List Nat) (n : Nat)
    (h : (prvLabelToFilenameHandle label).1 = none) :
    PKCS11_PAL_SaveObject env fs label D n = (eInvalidHandle, fs) := by
  have h2 := resolve_none_invalid label h
  simp only [PKCS11_PAL_SaveObject]
  rw [h, h2]

/-- C8 witness: saving under an unrecognized label on a one-file filesystem
returns the invalid handle and the unchanged filesystem. -/
theorem saveObject_unmapped_label_frame_witness :
    PKCS11_PAL_SaveObject envOK [(pkcs11palFILE_NAME_KEY, [9])]
        (some [1, 2, 3]) [4, 5] 2 =
      (eInvalidHandle, [(pkcs11palFILE_NAME_KEY, [9])]) :=
  saveObject_unmapped_label_frame envOK [(pkcs11palFILE_NAME_KEY, [9])]
    (some [1, 2, 3]) [4, 5] 2 (by decide)

/-- C9: the result of `PKCS11_PAL_FindObject` does not depend on its
label-length argument: for every filesystem state, label pointer and any
two length values, the two calls return the same handle (the source casts
the parameter to void). -/
theorem findObject_independent_of_length (fs : FS)
    (label : Option (List Nat)) (n1 n2 : Nat) :
    PKCS11_PAL_FindObject fs label n1 = PKCS11_PAL_FindObject fs label n2 :=
  rfl

/-- C10: a failed save is not atomic. For any label that resolves, when
file creation succeeds and the subsequent write fails, the save returns the
invalid handle while the backing file has already been truncated to empty
by `CREATE_ALWAYS`, so a previously stored non-empty object is lost even
though the operation reported failure. -/
theorem save_write_failure_not_atomic (env : OSEnv) (fs : FS)
    (L D : List Nat) (n : Nat) (fn : String) (hdl : Nat) (prev : List Nat)
    (hcreate : env.createOk = true) (hwrite : env.writeOk = false)
    (hres : prvLabelToFilenameHandle (some L) = (some fn, hdl))
    (_hprev : fsGet fs fn = some prev) :
    (PKCS11_PAL_SaveObject env fs (some L) D n).1 = eInvalidHandle ∧
    fsGet (PKCS11_PAL_SaveObject env fs (some L) D n).2 fn = some [] ∧
    (prev ≠ [] →
      fsGet (PKCS11_PAL_SaveObject env fs (some L) D n).2 fn ≠ some prev) := by
  have hrun : PKCS11_PAL_SaveObject env fs (some L) D n =
      (eInvalidHandle, fsSet fs fn []) := by
    simp [PKCS11_PAL_SaveObject, hres, hcreate, hwrite]
  rw [hrun]
  refine ⟨rfl, fsGet_fsSet_same fs fn [], fun hne hcontra => hne ?_⟩
  rw [fsGet_fsSet_same fs fn []] at hcontra
  exact (Option.some.injEq _ _ ▸ hcontra).symm

/-- C10 witness: the certificate file holds two bytes; a save whose write
fails returns the invalid handle and leaves the file truncated to empty. -/
theorem save_write_failure_not_atomic_witness :
    (PKCS11_PAL_SaveObject envWriteFail
        [(pkcs11palFILE_NAME_CLIENT_CERTIFICATE, [7, 7])]
        (some pkcs11configLABEL_DEVICE_CERTIFICATE_FOR_TLS)
        [1, 2, 3] 3).1 = eInvalidHandle ∧
    fsGet (PKCS11_PAL_SaveObject envWriteFail
        [(pkcs11palFILE_NAME_CLIENT_CERTIFICATE, [7, 7])]
        (some pkcs11configLABEL_DEVICE_CERTIFICATE_FOR_TLS)
        [1, 2, 3] 3).2 pkcs11palFILE_NAME_CLIENT_CERTIFICATE = some [] :=
  ⟨(save_write_failure_not_atomic envWriteFail
      [(pkcs11palFILE_NAME_CLIENT_CERTIFICATE, [7, 7])]
      pkcs11configLABEL_DEVICE_CERTIFICATE_FOR_TLS [1, 2, 3] 3
      pkcs11palFILE_NAME_CLIENT_CERTIFICATE eAwsDeviceCertificate [7, 7]
      rfl rfl (by decide) (by decide)).1,
   (save_write_failure_not_atomic envWriteFail
      [(pkcs11palFILE_NAME_CLIENT_CERTIFICATE, [7, 7])]
      pkcs11configLABEL_DEVICE_CERTIFICATE_FOR_TLS [1, 2, 3] 3
      pkcs11palFILE_NAME_CLIENT_CERTIFICATE eAwsDeviceCertificate [7, 7]
      rfl rfl (by decide) (by decide)).2.1⟩

end PKCS11PAL
